import Mathlib

deriving instance DecidableEq for Except

/-!
# Verification of the yozefu TUI component framework

Shallow embedding of the component layer of the `tui` crate:
the generic `VerticalScrollableBlock` decorator, the help, record-details,
schemas and topic-details panels, and the scroll-state machine.

Modelling conventions:
* Rust `u16` arithmetic is modelled on `Nat` with an explicit `% 65536`
  where the source can overflow (release-mode wrapping semantics).
* Fallible Rust code (`Result`) is modelled with `Except`; a reachable
  `panic!` / `.unwrap()` on an error value is modelled by an outer
  `Option` whose `none` stands for the panic.
* The action channel (`tokio::sync::mpsc::UnboundedSender`) is modelled by
  a boolean `closed` flag: `send` succeeds and records the action when the
  channel is open, and returns an error when the receiver has been dropped.
* Visual styling (colors, span styles, column padding) is out of scope per
  the specification; rendered lines keep the data each line displays.
-/

namespace Tui

/-- Crossterm key codes, restricted to the constructors the embedded
    components match on; `other` stands for every remaining code. -/
inductive KeyCode where
  | char : Char → KeyCode
  | down
  | up
  | esc
  | other
deriving DecidableEq, Repr

/-- A crossterm key event: a key code plus the CONTROL-modifier flag
    (the only modifier the embedded components inspect). -/
structure KeyEvent where
  code : KeyCode
  ctrl : Bool
deriving DecidableEq, Repr

/-- `ComponentName` from the tui crate (the identifiers used here). -/
inductive ComponentName where
  | help
  | recordDetails
  | schemas
  | topicDetails
deriving DecidableEq, Repr

/-- `TuiError`: the only error the embedded code paths produce is the
    conversion of a failed channel send. -/
inductive TuiError where
  | channelClosed
deriving DecidableEq, Repr

/-- `Shortcut::new(key, description)`. -/
structure Shortcut where
  key : String
  description : String
deriving DecidableEq, Repr

/-- Notification level (`action::Level`); only `Info` appears here. -/
inductive Level where
  | info
deriving DecidableEq, Repr

/-- `Notification::new(level, message)`. -/
structure Notification where
  level : Level
  message : String
deriving DecidableEq, Repr

/-- A record schema reference (`lib` crate): an identifier plus an
    optional schema type, as read through `key_schema`/`value_schema`. -/
structure Schema where
  id : String
  schema_type : Option String
deriving DecidableEq, Repr

/-- `SchemaDetail` (tui crate `schema_detail`): schema id, registry URL and
    the optional fetched response, whose pretty-printed content is kept as
    a string. -/
structure SchemaDetail where
  id : String
  url : String
  response : Option String
deriving DecidableEq, Repr

/-- `KafkaRecord` (`lib` crate), restricted to the fields the embedded
    components read. The record value is kept as the string handed to the
    highlighter. -/
structure KafkaRecord where
  topic : String
  timestamp : Option Int
  offset : Int
  partition : Int
  size : Nat
  key_as_string : String
  value : String
  headers : List (String × String)
  key_schema : Option Schema
  value_schema : Option Schema
deriving DecidableEq, Repr

/-- `KafkaRecord::default()`. -/
def KafkaRecord.default : KafkaRecord :=
  { topic := "", timestamp := none, offset := 0, partition := 0, size := 0,
    key_as_string := "", value := "", headers := [],
    key_schema := none, value_schema := none }

/-- `KafkaRecord::has_schemas` (`lib` crate): whether a key or value
    schema is attached. -/
def KafkaRecord.has_schemas (r : KafkaRecord) : Bool :=
  r.key_schema.isSome || r.value_schema.isSome

/-- `ConsumerGroupDetail` (`lib` crate), restricted to the name used for
    ordering and identification. -/
structure ConsumerGroupDetail where
  name : String
deriving DecidableEq, Repr

/-- `TopicDetail` (`lib` crate), restricted to the fields the
    topic-details component reads. -/
structure TopicDetail where
  name : String
  partitions : Nat
  replicas : Nat
  consumer_groups : List ConsumerGroupDetail
  count : Nat
deriving DecidableEq, Repr

/-- The `Action` message vocabulary, restricted to the variants the
    embedded components construct or match on. -/
inductive Action where
  | tick
  | showRecord : KafkaRecord → Action
  | search : String → Action
  | schemas : Option SchemaDetail → Option SchemaDetail → Action
  | requestSchemasOf : Option String → Option String → Action
  | newView : ComponentName → Action
  | openRecord : KafkaRecord → Action
  | copyToClipboard : String → Action
  | exportRecord : KafkaRecord → Action
  | notification : Notification → Action
  | topicDetails : List TopicDetail → Action
  | requestTopicDetails : List String → Action
deriving DecidableEq, Repr

/-- The highlighter collaborator: an opaque formatting function from raw
    text to display lines (spec treats it as side-effect free). -/
def Highlighter : Type := String → List String

/-- Modelled from the spec: the per-panel scroll state machine of
    `component::scroll_state::ScrollState` (the file is not part of the
    provided sources). A non-negative offset in line units, plus the
    "maximum" sentinel set by scroll-to-bottom and resolved against the
    content bound at render time. -/
structure ScrollState where
  value : Nat
  pinnedToBottom : Bool
deriving DecidableEq, Repr

/-- Modelled from the spec: initial scroll state, offset 0. -/
def ScrollState.initial : ScrollState := ⟨0, false⟩

/-- Modelled from the spec: `next_line`: offset += 1 (no upper clamp at
    transition time). -/
def ScrollState.scroll_to_next_line (s : ScrollState) : ScrollState :=
  { s with value := s.value + 1 }

/-- Modelled from the spec: `previous_line`: offset = max(0, offset - 1). -/
def ScrollState.scroll_to_previous_line (s : ScrollState) : ScrollState :=
  { s with value := s.value - 1 }

/-- Modelled from the spec: `top`: offset = 0. -/
def ScrollState.scroll_to_top (_ : ScrollState) : ScrollState := ⟨0, false⟩

/-- Modelled from the spec: `bottom`: offset becomes the sentinel meaning
    "maximum", resolved against the bound at render time. -/
def ScrollState.scroll_to_bottom (s : ScrollState) : ScrollState :=
  { s with pinnedToBottom := true }

/-- Modelled from the spec: `reset` (content replacement): offset = 0. -/
def ScrollState.reset (_ : ScrollState) : ScrollState := ⟨0, false⟩

/-- Modelled from the chrono library documentation (external dependency):
    `DateTime::from_timestamp_millis` returns `None` exactly when the
    millisecond count falls outside the range representable by
    `NaiveDateTime` (about years ±262000). Only the is-some-ness of the
    result is consumed by the embedded code, so the payload is the
    millisecond count itself. -/
def fromTimestampMillis (ms : Int) : Option Int :=
  if -8334601228800000 ≤ ms ∧ ms ≤ 8210298412799999 then some ms else none

/-! ## The generic component interface and the scrollable decorator -/

/-- The capability slice of the `Component` + `WithHeight` traits that the
    `VerticalScrollableBlock` decorator consumes, for an inner component
    with state type `σ`. Each method takes and returns the inner state
    explicitly (Rust mutates `self` in place). -/
structure ComponentImpl (σ : Type) where
  id : ComponentName
  handle_key_events : σ → KeyEvent → Except TuiError (Option Action) × σ
  update : σ → Action → Except TuiError (Option Action) × σ
  shortcuts : σ → List Shortcut
  content_height : σ → Nat

/-- `VerticalScrollableBlock<C>`: scroll position, cached scroll length and
    the ratatui `ScrollbarState` (content length and position), wrapping
    the inner component's state. -/
structure VerticalScrollableBlock (σ : Type) where
  scroll : Nat
  scroll_length : Nat
  scrollbar_content_length : Nat
  scrollbar_position : Nat
  component : σ
deriving DecidableEq, Repr

namespace VerticalScrollableBlock

/-- `VerticalScrollableBlock::new`: scroll 0, scroll_length 10, scrollbar
    state initialised with the inner component's content height. -/
def new {σ : Type} (c : ComponentImpl σ) (inner : σ) : VerticalScrollableBlock σ :=
  { scroll := 0, scroll_length := 10,
    scrollbar_content_length := c.content_height inner,
    scrollbar_position := 0,
    component := inner }

/-- Whether a key code belongs to the decorator's intercepted scroll
    vocabulary (`j`/Down, `k`/Up, `[`, `]`). -/
def isScrollKey (code : KeyCode) : Bool :=
  match code with
  | .char c => c = 'j' || c = 'k' || c = '[' || c = ']'
  | .down => true
  | .up => true
  | _ => false

/-- `VerticalScrollableBlock::handle_key_events`. Scroll keys update the
    decorator's own offset (u16 arithmetic); every other key is forwarded
    to the inner component, whose error propagates through `?` but whose
    successful optional action is discarded: the decorator ends with
    `Ok(None)`. -/
def handle_key_events {σ : Type} (c : ComponentImpl σ)
    (st : VerticalScrollableBlock σ) (key : KeyEvent) :
    Except TuiError (Option Action) × VerticalScrollableBlock σ :=
  match key.code with
  | .char 'j' | .down =>
      (.ok none, { st with scroll := min ((st.scroll + 1) % 65536) st.scroll_length })
  | .char 'k' | .up =>
      (.ok none, { st with scroll := st.scroll - 1 })
  | .char '[' =>
      (.ok none, { st with scroll := 0 })
  | .char ']' =>
      (.ok none, { st with scroll := st.scroll_length })
  | _ =>
      let res := c.handle_key_events st.component key
      match res.1 with
      | .error e => (.error e, { st with component := res.2 })
      | .ok _ => (.ok none, { st with component := res.2 })

/-- `VerticalScrollableBlock::update`: pure delegation to the inner
    component. -/
def update {σ : Type} (c : ComponentImpl σ)
    (st : VerticalScrollableBlock σ) (action : Action) :
    Except TuiError (Option Action) × VerticalScrollableBlock σ :=
  let res := c.update st.component action
  (res.1, { st with component := res.2 })

/-- `VerticalScrollableBlock::id`: delegation. -/
def id {σ : Type} (c : ComponentImpl σ) (_st : VerticalScrollableBlock σ) :
    ComponentName :=
  c.id

/-- `VerticalScrollableBlock::shortcuts`: delegation. -/
def shortcuts {σ : Type} (c : ComponentImpl σ) (st : VerticalScrollableBlock σ) :
    List Shortcut :=
  c.shortcuts st.component

/-- `VerticalScrollableBlock::draw` (state effect): clear the scrollbar
    content length, convert the inner content height to u16 (saturating at
    `u16::MAX`), then: if the viewport is shorter than the content,
    recompute `scroll_length = content_height - rect.height + 2` and place
    the scrollbar at the current (unclamped) offset; otherwise zero the
    scrollbar track and force the offset to 0. `rectHeight` is the u16
    `rect.height`. -/
def draw {σ : Type} (c : ComponentImpl σ)
    (st : VerticalScrollableBlock σ) (rectHeight : Nat) :
    VerticalScrollableBlock σ :=
  let content_height := min (c.content_height st.component) 65535
  if rectHeight < content_height then
    let sl := (content_height - rectHeight + 2) % 65536
    { st with scroll_length := sl,
              scrollbar_content_length := sl,
              scrollbar_position := st.scroll }
  else
    { st with scrollbar_content_length := 0, scroll := 0 }

/-- The delegation behaviour the spec describes for non-scroll keys,
    stated in the spec's own words: the decorator "produces identical
    results to calling the inner panel directly" — the inner component's
    full `Result<Option<Action>>` is returned unchanged. Used only to be
    compared against `handle_key_events` above. -/
def handle_key_events_specDelegation {σ : Type} (c : ComponentImpl σ)
    (st : VerticalScrollableBlock σ) (key : KeyEvent) :
    Except TuiError (Option Action) × VerticalScrollableBlock σ :=
  if isScrollKey key.code then
    handle_key_events c st key
  else
    let res := c.handle_key_events st.component key
    (res.1, { st with component := res.2 })

end VerticalScrollableBlock

/-! ## HelpComponent -/

/-- A ratatui `Rect`, restricted to the u16 dimensions the embedded code
    reads. -/
structure Rect where
  width : Nat
  height : Nat
deriving DecidableEq, Repr

/-- Rust `str::len`: the UTF-8 byte length of a string, modelled on the
    string's character list. -/
def byteLen (s : List Char) : Nat :=
  (s.map Char.utf8Size).sum

/-- Rust `str::char_indices` starting from byte offset `off`: each
    character paired with its starting byte offset. -/
def charIndicesAux (off : Nat) : List Char → List (Nat × Char)
  | [] => []
  | c :: cs => (off, c) :: charIndicesAux (off + c.utf8Size) cs

/-- Rust string slicing `&s[..idx]`: the prefix of `s` occupying exactly
    `idx` bytes, or `none` when `idx` is not a character boundary or
    exceeds the byte length (the operation panics there). -/
def sliceTo (s : List Char) (idx : Nat) : Option (List Char) :=
  match s, idx with
  | _, 0 => some []
  | [], _ + 1 => none
  | c :: cs, idx =>
      if c.utf8Size ≤ idx then (sliceTo cs (idx - c.utf8Size)).map (fun t => c :: t)
      else none

/-- `HelpComponent::truncate_str`: cap a configuration value at
    `rect.width - 84` characters (30 when the width is below 84); strings
    within `max_len` bytes are returned unchanged, longer ones are sliced
    at the byte index of their `max_len`-th character (or not at all when
    they hold at most `max_len` characters). `none` models a slicing
    panic. -/
def truncate_str (rect : Rect) (s : List Char) : Option (List Char) :=
  let max_len := if 84 ≤ rect.width then rect.width - 84 else 30
  if byteLen s ≤ max_len then some s
  else
    let idx := (((charIndicesAux 0 s).get? max_len).map Prod.fst).getD (byteLen s)
    sliceTo s idx

/-- `HelpComponent` state: its scroll state and the frame counter used for
    the easter-egg issue screen. -/
structure HelpComponent where
  scroll : ScrollState
  rendered : Nat
deriving DecidableEq, Repr

/-- `HelpComponent::handle_key_events`: reset the frame counter, then
    `j`/Down, `k`/Up, `[`, `]` drive the scroll state; other keys are
    ignored; always returns `Ok(None)`. -/
def HelpComponent.handle_key_events (st : HelpComponent) (key : KeyEvent) :
    Except TuiError (Option Action) × HelpComponent :=
  let st := { st with rendered := 0 }
  match key.code with
  | .char 'j' | .down => (.ok none, { st with scroll := st.scroll.scroll_to_next_line })
  | .char 'k' | .up => (.ok none, { st with scroll := st.scroll.scroll_to_previous_line })
  | .char '[' => (.ok none, { st with scroll := st.scroll.scroll_to_top })
  | .char ']' => (.ok none, { st with scroll := st.scroll.scroll_to_bottom })
  | _ => (.ok none, st)

/-! ## RecordDetailsComponent -/

/-- One rendered line of the record-details panel, keeping the data each
    line displays (span styling and column padding abstracted). When
    headers are present the size line's value span is removed and the
    first header entry's spans are appended to it; every further header
    entry lands on its own line (three spans per entry, chunked by 3). -/
inductive RLine where
  | blank
  | topic : String → RLine
  | timestampMs : Int → RLine
  | datetime
  | published
  | offsetLine : Int → RLine
  | partitionLine : Int → RLine
  | sizeLine : Option Nat → Option (String × String) → RLine
  | headerLine : String × String → RLine
  | keySchemaLine : String → Option String → RLine
  | valueSchemaLine : String → Option String → RLine
  | keyLine : String → RLine
  | valueHeader
  | content : String → RLine
deriving DecidableEq, Repr

/-- Stable insertion of a header entry into a key-sorted list
    (`sorted_by(|a, b| a.0.cmp(b.0))`). -/
def insertPair (p : String × String) : List (String × String) → List (String × String)
  | [] => [p]
  | q :: qs => if p.1 ≤ q.1 then p :: q :: qs else q :: insertPair p qs

/-- Header entries sorted by key. -/
def sortPairs (l : List (String × String)) : List (String × String) :=
  l.foldr insertPair []

/-- The line buffer `compute_record_rendering` builds from a record:
    `none` models the panic of `DateTime::from_timestamp_millis(..)
    .unwrap()` on an out-of-range timestamp (a missing timestamp defaults
    to 0 first). -/
def renderRecordLines (hl : Highlighter) (record : KafkaRecord) : Option (List RLine) :=
  let timestamp_in_millis := record.timestamp.getD 0
  match fromTimestampMillis timestamp_in_millis with
  | none => none
  | some _ =>
    let hs := sortPairs record.headers
    let base : List RLine :=
      [.blank, .topic record.topic, .timestampMs timestamp_in_millis, .datetime,
       .published, .offsetLine record.offset, .partitionLine record.partition,
       .sizeLine (if hs.isEmpty then some record.size else none) hs.head?]
    let headerRest := (hs.drop 1).map RLine.headerLine
    let keySchemaL :=
      match record.key_schema with
      | some s => [RLine.keySchemaLine s.id s.schema_type]
      | none => []
    let valueSchemaL :=
      match record.value_schema with
      | some s => [RLine.valueSchemaLine s.id s.schema_type]
      | none => []
    some (base ++ headerRest ++ keySchemaL ++ valueSchemaL ++
      [RLine.keyLine record.key_as_string, RLine.valueHeader] ++
      (hl record.value).map RLine.content)

/-- `RecordDetailsComponent` state (theme cache abstracted away as pure
    presentation; the highlighter and the channel are passed as
    parameters instead of stored). -/
structure RecordDetailsComponent where
  record : Option KafkaRecord
  lines : List RLine
  search_query : String
  scroll : ScrollState
deriving DecidableEq, Repr

/-- `RecordDetailsComponent::default()`. -/
def RecordDetailsComponent.default : RecordDetailsComponent :=
  { record := none, lines := [], search_query := "", scroll := ScrollState.initial }

/-- `RecordDetailsComponent::compute_record_rendering`: default the record
    when absent, rebuild the line buffer from it and reset the scroll
    offset; `none` models the timestamp panic inside the rendering. -/
def RecordDetailsComponent.compute_record_rendering (hl : Highlighter)
    (st : RecordDetailsComponent) : Option RecordDetailsComponent :=
  let record := st.record.getD KafkaRecord.default
  (renderRecordLines hl record).map fun ls =>
    { st with record := some record, lines := ls, scroll := st.scroll.reset }

/-- Abstraction of `serde_json::to_string_pretty` on an
    `ExportedKafkaRecord` built from a record and the current search
    query; the spec treats serialization failure as a programmer defect,
    so the function is total and only the existence of the payload
    matters. -/
def exportedRecordJson (r : KafkaRecord) (q : String) : String :=
  r.topic ++ ":" ++ r.key_as_string ++ ":" ++ q

/-- `RecordDetailsComponent::show_schema`: no-op when the record has no
    schemas; `none` models the `self.record.as_ref().unwrap()` panic when
    no record is set at all; otherwise publishes the schema request and
    the view change, each via a fallible send. Returns the sent actions. -/
def RecordDetailsComponent.show_schema (closed : Bool)
    (st : RecordDetailsComponent) : Option (Except TuiError Unit × List Action) :=
  match st.record with
  | some r =>
      if ¬ r.has_schemas then some (.ok (), [])
      else if closed then some (.error .channelClosed, [])
      else some (.ok (),
        [Action.requestSchemasOf (r.key_schema.map Schema.id) (r.value_schema.map Schema.id),
         Action.newView .schemas])
  | none => none

/-- `RecordDetailsComponent::handle_key_events`: `j`/`k`/`[`/`]` drive the
    scroll state (Down and Up are NOT handled here); `o`, `s`, `c`, `e`
    publish actions through fallible sends (`?`); everything else is a
    no-op. `closed` is the channel state, the returned list the actions
    successfully sent, and `none` a panic. -/
def RecordDetailsComponent.handle_key_events (closed : Bool)
    (st : RecordDetailsComponent) (key : KeyEvent) :
    Option (Except TuiError (Option Action) × RecordDetailsComponent × List Action) :=
  match key.code with
  | .char 'j' => some (.ok none, { st with scroll := st.scroll.scroll_to_next_line }, [])
  | .char 'k' => some (.ok none, { st with scroll := st.scroll.scroll_to_previous_line }, [])
  | .char '[' => some (.ok none, { st with scroll := st.scroll.scroll_to_top }, [])
  | .char ']' => some (.ok none, { st with scroll := st.scroll.scroll_to_bottom }, [])
  | .char 'o' =>
      match st.record with
      | some record =>
          if closed then some (.error .channelClosed, st, [])
          else some (.ok none, st, [Action.openRecord record])
      | none => some (.ok none, st, [])
  | .char 's' =>
      match st.show_schema closed with
      | none => none
      | some (.error e, sent) => some (.error e, st, sent)
      | some (.ok _, sent) => some (.ok none, st, sent)
  | .char 'c' =>
      match st.record with
      | some record =>
          if closed then some (.error .channelClosed, st, [])
          else some (.ok none, st,
            [Action.copyToClipboard (exportedRecordJson record st.search_query)])
      | none => some (.ok none, st, [])
  | .char 'e' =>
      match st.record with
      | some record =>
          if closed then some (.error .channelClosed, st, [])
          else some (.ok none, st, [Action.exportRecord record])
      | none => some (.ok none, st, [])
  | _ => some (.ok none, st, [])

/-- `RecordDetailsComponent::update`: `ShowRecord` replaces the record and
    recomputes the rendering (whose timestamp panic `none` propagates);
    `Search` stores the query string (`Action::Search(e)` modelled as
    carrying `e.query()` directly); every other action is ignored. -/
def RecordDetailsComponent.update (hl : Highlighter)
    (st : RecordDetailsComponent) (action : Action) :
    Option (Except TuiError (Option Action) × RecordDetailsComponent) :=
  match action with
  | .showRecord record =>
      (RecordDetailsComponent.compute_record_rendering hl
        { st with record := some record }).map fun st' => (.ok none, st')
  | .search q => some (.ok none, { st with search_query := q })
  | _ => some (.ok none, st)

/-! ## SchemasComponent -/

/-- One rendered line of the schemas panel (styling abstracted). -/
inductive SLine where
  | keyUrl : String → SLine
  | valueUrl : String → SLine
  | blank
  | keyHeader
  | valueHeader
  | content : String → SLine
deriving DecidableEq, Repr

/-- The text rendered for a schema: the pretty-printed response when
    fetched (`SchemaResponse::schema_to_string_pretty`, kept as the
    response string), else the unavailability message. -/
def schemaContent (s : SchemaDetail) : String :=
  s.response.getD ("The Schema " ++ s.id ++
    " is unavailable. Please make sure you configured Yozefu to use the schema registry.")

/-- `SchemasComponent` state (highlighter and channel passed as
    parameters). -/
structure SchemasComponent where
  key : Option SchemaDetail
  value : Option SchemaDetail
  lines : List SLine
  scroll : ScrollState
deriving DecidableEq, Repr

/-- `SchemasComponent::default()`. -/
def SchemasComponent.default : SchemasComponent :=
  { key := none, value := none, lines := [], scroll := ScrollState.initial }

/-- `SchemasComponent::compute_schemas_rendering`: URL line per present
    schema, then for each present schema a blank line, a section header
    and the highlighted schema content. -/
def SchemasComponent.compute_schemas_rendering (hl : Highlighter)
    (st : SchemasComponent) : SchemasComponent :=
  let keyUrlL := match st.key with
    | some s => [SLine.keyUrl s.url]
    | none => []
  let valueUrlL := match st.value with
    | some s => [SLine.valueUrl s.url]
    | none => []
  let keyBlock := match st.key with
    | some s => [SLine.blank, SLine.keyHeader] ++ (hl (schemaContent s)).map SLine.content
    | none => []
  let valueBlock := match st.value with
    | some s => [SLine.blank, SLine.valueHeader] ++ (hl (schemaContent s)).map SLine.content
    | none => []
  { st with lines := keyUrlL ++ valueUrlL ++ keyBlock ++ valueBlock }

/-- `SchemasComponent::update`: `Schemas(key, value)` replaces both schema
    details, recomputes the rendering and resets the scroll state; every
    other action is ignored. -/
def SchemasComponent.update (hl : Highlighter)
    (st : SchemasComponent) (action : Action) :
    Except TuiError (Option Action) × SchemasComponent :=
  match action with
  | .schemas k v =>
      let st' := SchemasComponent.compute_schemas_rendering hl { st with key := k, value := v }
      (.ok none, { st' with scroll := st'.scroll.reset })
  | _ => (.ok none, st)

/-- Abstraction of `serde_json::to_string_pretty` on
    `ExportedSchemasDetails` (total, see `exportedRecordJson`). -/
def exportedSchemasJson (k v : Option SchemaDetail) : String :=
  (k.map SchemaDetail.id).getD "" ++ ":" ++ (v.map SchemaDetail.id).getD ""

/-- `SchemasComponent::handle_key_events`: the 4-key scroll vocabulary
    including Down/Up, plus `c` publishing the exported schemas through a
    fallible send. -/
def SchemasComponent.handle_key_events (closed : Bool)
    (st : SchemasComponent) (key : KeyEvent) :
    Except TuiError (Option Action) × SchemasComponent × List Action :=
  match key.code with
  | .char 'j' | .down => (.ok none, { st with scroll := st.scroll.scroll_to_next_line }, [])
  | .char 'k' | .up => (.ok none, { st with scroll := st.scroll.scroll_to_previous_line }, [])
  | .char '[' => (.ok none, { st with scroll := st.scroll.scroll_to_top }, [])
  | .char ']' => (.ok none, { st with scroll := st.scroll.scroll_to_bottom }, [])
  | .char 'c' =>
      if closed then (.error .channelClosed, st, [])
      else (.ok none, st, [Action.copyToClipboard (exportedSchemasJson st.key st.value)])
  | _ => (.ok none, st, [])

/-! ## TopicDetailsComponent -/

/-- `TopicDetailsComponent` state (throbber animation state abstracted). -/
structure TopicDetailsComponent where
  details : List TopicDetail
  selected : Option Nat
  refreshing_data : Bool
deriving DecidableEq, Repr

namespace TopicDetailsComponent

/-- `TopicDetailsComponent::default()`. -/
def default : TopicDetailsComponent :=
  { details := [], selected := none, refreshing_data := false }

/-- `TopicDetailsComponent::all_consumer_members`: the consumer groups of
    every topic detail, flattened. -/
def all_consumer_members (st : TopicDetailsComponent) : List ConsumerGroupDetail :=
  st.details.flatMap (fun e => e.consumer_groups)

/-- `WithHeight::content_height` for the topic-details component: total
    number of consumer groups. -/
def content_height (st : TopicDetailsComponent) : Nat :=
  (st.details.map (fun e => e.consumer_groups.length)).sum

/-- `TopicDetailsComponent::next`: clear the selection when there are no
    consumer groups, otherwise advance it (saturating at the last index),
    starting at 0 when nothing was selected. -/
def next (st : TopicDetailsComponent) : TopicDetailsComponent :=
  let consumer_members := all_consumer_members st
  if consumer_members.isEmpty then { st with selected := none }
  else
    let i := match st.selected with
      | some i => if consumer_members.length - 1 ≤ i then i else i + 1
      | none => 0
    { st with selected := some i }

/-- `TopicDetailsComponent::previous`: clear the selection when there are
    no consumer groups, otherwise move it back (saturating at 0). -/
def previous (st : TopicDetailsComponent) : TopicDetailsComponent :=
  let consumer_members := all_consumer_members st
  if consumer_members.isEmpty then { st with selected := none }
  else
    let i := match st.selected with
      | some i => if i = 0 then 0 else i - 1
      | none => 0
    { st with selected := some i }

/-- `TopicDetailsComponent::first`: select index 0, or nothing when there
    are no consumer groups. -/
def first (st : TopicDetailsComponent) : TopicDetailsComponent :=
  if (all_consumer_members st).isEmpty then { st with selected := none }
  else { st with selected := some 0 }

/-- `TopicDetailsComponent::last`: select the last index, or nothing when
    there are no consumer groups. -/
def last (st : TopicDetailsComponent) : TopicDetailsComponent :=
  let consumer_members := all_consumer_members st
  if consumer_members.isEmpty then { st with selected := none }
  else { st with selected := some (consumer_members.length - 1) }

/-- `TopicDetailsComponent::handle_key_events`: `j`/Down, `k`/Up, `[`, `]`
    drive the table selection; Ctrl+p marks a refresh and publishes a
    notification and a details request with `.send(..).unwrap()`, so a
    closed channel panics (`none`); other keys are ignored. The `HashSet`
    of topic names is modelled as the list of names. -/
def handle_key_events (closed : Bool) (st : TopicDetailsComponent) (key : KeyEvent) :
    Option (Except TuiError (Option Action) × TopicDetailsComponent × List Action) :=
  match key.code with
  | .char 'j' | .down => some (.ok none, next st, [])
  | .char 'k' | .up => some (.ok none, previous st, [])
  | .char '[' => some (.ok none, first st, [])
  | .char ']' => some (.ok none, last st, [])
  | .char 'p' =>
      if key.ctrl then
        let names := st.details.map TopicDetail.name
        let st' := { st with refreshing_data := true }
        if closed then none
        else some (.ok none, st',
          [Action.notification ⟨.info, "Refreshing data"⟩,
           Action.requestTopicDetails names])
      else some (.ok none, st, [])
  | _ => some (.ok none, st, [])

/-- `TopicDetailsComponent::update`: `TopicDetails` replaces the details
    and ends the refresh; `RequestTopicDetails` marks a refresh when
    details are already present; `Tick` only animates the throbber; other
    actions are ignored. -/
def update (st : TopicDetailsComponent) (action : Action) :
    Except TuiError (Option Action) × TopicDetailsComponent :=
  match action with
  | .topicDetails details => (.ok none, { st with refreshing_data := false, details := details })
  | .requestTopicDetails _ =>
      if st.details.isEmpty then (.ok none, st)
      else (.ok none, { st with refreshing_data := true })
  | _ => (.ok none, st)

end TopicDetailsComponent

/-! ## Selection operation sequences -/

/-- The four table-selection operations of the topic-details component. -/
inductive SelOp where
  | next
  | previous
  | first
  | last
deriving DecidableEq, Repr

/-- Apply one selection operation. -/
def applySelOp (st : TopicDetailsComponent) : SelOp → TopicDetailsComponent
  | .next => st.next
  | .previous => st.previous
  | .first => st.first
  | .last => st.last

/-- Apply a sequence of selection operations, oldest first. -/
def applySelOps (st : TopicDetailsComponent) (ops : List SelOp) : TopicDetailsComponent :=
  ops.foldl applySelOp st

/-! ## Key events and concrete fixtures used by witnesses and
counterexamples -/

/-- The `j` key. -/
def keyJ : KeyEvent := ⟨.char 'j', false⟩

/-- The `k` key. -/
def keyK : KeyEvent := ⟨.char 'k', false⟩

/-- The Down arrow key. -/
def keyDown : KeyEvent := ⟨.down, false⟩

/-- The Up arrow key. -/
def keyUp : KeyEvent := ⟨.up, false⟩

/-- The `[` key. -/
def keyLBracket : KeyEvent := ⟨.char '[', false⟩

/-- The `]` key. -/
def keyRBracket : KeyEvent := ⟨.char ']', false⟩

/-- The `o` key. -/
def keyO : KeyEvent := ⟨.char 'o', false⟩

/-- The `c` key. -/
def keyC : KeyEvent := ⟨.char 'c', false⟩

/-- The `e` key. -/
def keyE : KeyEvent := ⟨.char 'e', false⟩

/-- A key outside the scroll vocabulary. -/
def keyX : KeyEvent := ⟨.char 'x', false⟩

/-- Ctrl+p. -/
def ctrlP : KeyEvent := ⟨.char 'p', true⟩

/-- An inner component with a fixed content height and no behaviour. -/
def constComponent (h : Nat) : ComponentImpl Unit :=
  { id := .topicDetails,
    handle_key_events := fun s _ => (.ok none, s),
    update := fun s _ => (.ok none, s),
    shortcuts := fun _ => [],
    content_height := fun _ => h }

/-- An inner component that yields an action from every key event
    (permitted by the `Component` contract). -/
def actionInner : ComponentImpl Unit :=
  { id := .help,
    handle_key_events := fun s _ => (.ok (some Action.tick), s),
    update := fun s a => (.ok (some a), s),
    shortcuts := fun _ => [⟨"X", "x"⟩],
    content_height := fun _ => 0 }

/-- An inner component whose state is its content height and that grows by
    5 lines on every `Tick` (simulating data arrival). -/
def growComponent : ComponentImpl Nat :=
  { id := .topicDetails,
    handle_key_events := fun s _ => (.ok none, s),
    update := fun s a => match a with
      | .tick => (.ok none, s + 5)
      | _ => (.ok none, s),
    shortcuts := fun _ => [],
    content_height := fun s => s }

/-- An identity-like highlighter: one output line holding the raw text. -/
def hlId : Highlighter := fun s => [s]

/-- Fold a list of key events through the decorator's key handler,
    keeping the state. -/
def applyScrollKeys {σ : Type} (c : ComponentImpl σ)
    (st : VerticalScrollableBlock σ) (keys : List KeyEvent) :
    VerticalScrollableBlock σ :=
  keys.foldl (fun s k => (VerticalScrollableBlock.handle_key_events c s k).2) st

/-- A decorator fixture wrapping a unit component of content height 3. -/
def vsbConst : VerticalScrollableBlock Unit :=
  VerticalScrollableBlock.new (constComponent 3) ()

/-- A decorator fixture wrapping a unit component of content height 50. -/
def vsb50 : VerticalScrollableBlock Unit :=
  VerticalScrollableBlock.new (constComponent 50) ()

/-- A topic-details fixture with one consumer group. -/
def sampleTopicState : TopicDetailsComponent :=
  { details := [{ name := "orders", partitions := 4, replicas := 2,
                  consumer_groups := [⟨"group-a"⟩], count := 10 }],
    selected := none, refreshing_data := false }

/-- A record fixture. -/
def sampleRecord : KafkaRecord :=
  { KafkaRecord.default with topic := "orders", key_as_string := "k1" }

/-- A record-details fixture holding `sampleRecord`. -/
def sampleRecordState : RecordDetailsComponent :=
  { RecordDetailsComponent.default with record := some sampleRecord }

/-- A record whose timestamp (`i64::MAX` milliseconds) lies outside the
    range `chrono` can represent. -/
def badTimestampRecord : KafkaRecord :=
  { KafkaRecord.default with timestamp := some 9223372036854775807 }

/-- The line buffer rendered for `KafkaRecord::default()` under `hlId`. -/
def defaultRecordLines : List RLine :=
  [.blank, .topic "", .timestampMs 0, .datetime, .published, .offsetLine 0,
   .partitionLine 0, .sizeLine (some 0) none, .keyLine "", .valueHeader, .content ""]

/-- The record-details state reached by showing `KafkaRecord::default()`
    on the default state under `hlId`. -/
def defaultShownState : RecordDetailsComponent :=
  { record := some KafkaRecord.default, lines := defaultRecordLines,
    search_query := "", scroll := ScrollState.initial }

/-! ## Theorems -/

/-- Record-update of `selected` does not change the flattened
    consumer-group list. -/
theorem acm_set_selected (st : TopicDetailsComponent) (x : Option Nat) :
    TopicDetailsComponent.all_consumer_members { st with selected := x } =
      st.all_consumer_members := rfl

/-- States with equal details have equal flattened consumer-group lists. -/
theorem acm_eq_of_details {st1 st2 : TopicDetailsComponent}
    (h : st1.details = st2.details) :
    st1.all_consumer_members = st2.all_consumer_members := by
  unfold TopicDetailsComponent.all_consumer_members
  rw [h]

/-- One selection operation preserves the details, re-establishes the
    selection invariant, and selects something whenever consumer groups
    exist. -/
theorem selOp_step (st : TopicDetailsComponent) (op : SelOp)
    (h2 : ∀ i, st.selected = some i → i < st.all_consumer_members.length) :
    (applySelOp st op).details = st.details ∧
    ((applySelOp st op).all_consumer_members = [] → (applySelOp st op).selected = none) ∧
    (∀ i, (applySelOp st op).selected = some i →
      i < (applySelOp st op).all_consumer_members.length) ∧
    (st.all_consumer_members ≠ [] → ∃ i, (applySelOp st op).selected = some i) := by
  cases op <;>
    simp only [applySelOp, TopicDetailsComponent.next, TopicDetailsComponent.previous,
      TopicDetailsComponent.first, TopicDetailsComponent.last] <;>
    cases hacm : st.all_consumer_members <;>
      simp_all [acm_set_selected, hacm] <;>
      cases hsel : st.selected <;>
        simp_all [hacm, hsel] <;>
        first
          | omega
          | (split <;> omega)

/-- A sequence of selection operations preserves the details and the
    selection invariant. -/
theorem applySelOps_inv (ops : List SelOp) (st : TopicDetailsComponent)
    (h1 : st.all_consumer_members = [] → st.selected = none)
    (h2 : ∀ i, st.selected = some i → i < st.all_consumer_members.length) :
    (applySelOps st ops).details = st.details ∧
    ((applySelOps st ops).all_consumer_members = [] →
      (applySelOps st ops).selected = none) ∧
    (∀ i, (applySelOps st ops).selected = some i →
      i < (applySelOps st ops).all_consumer_members.length) := by
  induction ops generalizing st with
  | nil => exact ⟨rfl, h1, h2⟩
  | cons op rest ih =>
      have step := selOp_step st op h2
      have rec := ih (applySelOp st op) step.2.1 step.2.2.1
      exact ⟨rec.1.trans step.1, rec.2.1, rec.2.2⟩

/-- Appending one operation folds it last. -/
theorem applySelOps_append_single (st : TopicDetailsComponent)
    (l : List SelOp) (op : SelOp) :
    applySelOps st (l ++ [op]) = applySelOp (applySelOps st l) op := by
  simp [applySelOps, List.foldl_append]

/-- C10: with the details list held fixed, any sequence of `next`,
    `previous`, `first`, `last` from the no-selection state keeps the
    table selection `None` when the flattened consumer-group list is
    empty, and otherwise any selection is `Some i` with `i` strictly below
    the number of consumer groups; after at least one operation on a
    non-empty group list the selection is `Some`. -/
theorem C10_selection_invariant (details : List TopicDetail) (ops : List SelOp) :
    (((applySelOps ⟨details, none, false⟩ ops).all_consumer_members = [] →
        (applySelOps ⟨details, none, false⟩ ops).selected = none) ∧
      (∀ i, (applySelOps ⟨details, none, false⟩ ops).selected = some i →
        i < (applySelOps ⟨details, none, false⟩ ops).all_consumer_members.length)) ∧
    (ops ≠ [] →
      TopicDetailsComponent.all_consumer_members ⟨details, none, false⟩ ≠ [] →
      ∃ i, (applySelOps ⟨details, none, false⟩ ops).selected = some i ∧
        i < (TopicDetailsComponent.all_consumer_members ⟨details, none, false⟩).length) := by
  have base := applySelOps_inv ops ⟨details, none, false⟩ (fun _ => rfl) (by intro i h; cases h)
  refine ⟨⟨base.2.1, base.2.2⟩, ?_⟩
  intro hne hacm
  have hdec := List.dropLast_append_getLast hne
  have base' := applySelOps_inv ops.dropLast ⟨details, none, false⟩
    (fun _ => rfl) (by intro i h; cases h)
  have hsame : (applySelOps ⟨details, none, false⟩ ops.dropLast).all_consumer_members =
      TopicDetailsComponent.all_consumer_members ⟨details, none, false⟩ :=
    acm_eq_of_details base'.1
  have step := selOp_step (applySelOps ⟨details, none, false⟩ ops.dropLast)
    (ops.getLast hne) base'.2.2
  obtain ⟨i, hi⟩ := step.2.2.2 (by rw [hsame]; exact hacm)
  have hfold : applySelOps ⟨details, none, false⟩ ops =
      applySelOp (applySelOps ⟨details, none, false⟩ ops.dropLast) (ops.getLast hne) := by
    conv_lhs => rw [← hdec]
    exact applySelOps_append_single _ _ _
  refine ⟨i, by rw [hfold]; exact hi, ?_⟩
  have hbound := step.2.2.1 i hi
  have hacmstep : (applySelOp (applySelOps ⟨details, none, false⟩ ops.dropLast)
      (ops.getLast hne)).all_consumer_members =
      TopicDetailsComponent.all_consumer_members ⟨details, none, false⟩ := by
    refine (acm_eq_of_details step.1).trans hsame
  rw [hacmstep] at hbound
  exact hbound

/-- C10 witness: two `next` operations on a one-group topic keep the
    invariant and select index 0. -/
theorem C10_witness :
    ((((applySelOps ⟨sampleTopicState.details, none, false⟩ [.next, .next]).all_consumer_members = [] →
        (applySelOps ⟨sampleTopicState.details, none, false⟩ [.next, .next]).selected = none) ∧
      (∀ i, (applySelOps ⟨sampleTopicState.details, none, false⟩ [.next, .next]).selected = some i →
        i < (applySelOps ⟨sampleTopicState.details, none, false⟩ [.next, .next]).all_consumer_members.length)) ∧
    (([SelOp.next, SelOp.next] : List SelOp) ≠ [] →
      TopicDetailsComponent.all_consumer_members ⟨sampleTopicState.details, none, false⟩ ≠ [] →
      ∃ i, (applySelOps ⟨sampleTopicState.details, none, false⟩ [.next, .next]).selected = some i ∧
        i < (TopicDetailsComponent.all_consumer_members ⟨sampleTopicState.details, none, false⟩).length)) ∧
    ([SelOp.next, SelOp.next] : List SelOp) ≠ [] ∧
    TopicDetailsComponent.all_consumer_members ⟨sampleTopicState.details, none, false⟩ ≠ [] :=
  ⟨C10_selection_invariant sampleTopicState.details [.next, .next], by decide, by decide⟩

/-- C2: publish-after-shutdown. The topic-details panel panics (modelled
    `none`) because Ctrl+p sends with `.unwrap()`; the record-details and
    schemas panels return the recoverable channel-closed error through
    `?`. This exhibits the code-bug divergence from the claim. -/
theorem C2_publish_after_shutdown :
    TopicDetailsComponent.handle_key_events true sampleTopicState ctrlP = none ∧
    RecordDetailsComponent.handle_key_events true sampleRecordState keyO =
      some (.error .channelClosed, sampleRecordState, []) ∧
    RecordDetailsComponent.handle_key_events true sampleRecordState keyC =
      some (.error .channelClosed, sampleRecordState, []) ∧
    RecordDetailsComponent.handle_key_events true sampleRecordState keyE =
      some (.error .channelClosed, sampleRecordState, []) ∧
    SchemasComponent.handle_key_events true SchemasComponent.default keyC =
      (.error .channelClosed, SchemasComponent.default, []) := by
  refine ⟨rfl, rfl, rfl, rfl, rfl⟩

/-- C5 counterexample: on the record-details panel the Down key is not a
    scroll key — the state is returned unchanged, while a next-line
    scroll would have changed the scroll state. -/
theorem C5_counterexample :
    RecordDetailsComponent.handle_key_events false RecordDetailsComponent.default keyDown =
      some (.ok none, RecordDetailsComponent.default, []) ∧
    ScrollState.scroll_to_next_line RecordDetailsComponent.default.scroll ≠
      RecordDetailsComponent.default.scroll := by
  exact ⟨rfl, by decide⟩

/-- C5 (amended): the help panel, the schemas panel and the decorator
    honor the 4-key scroll vocabulary with both `j`/Down and `k`/Up; the
    record-details panel honors `j`, `k`, `[`, `]` but leaves Down and Up
    to record navigation (its scroll state is untouched by them). -/
theorem C5_scroll_vocabulary_amended :
    (∀ st : HelpComponent,
      HelpComponent.handle_key_events st keyJ =
        (.ok none, { rendered := 0, scroll := st.scroll.scroll_to_next_line }) ∧
      HelpComponent.handle_key_events st keyDown =
        (.ok none, { rendered := 0, scroll := st.scroll.scroll_to_next_line }) ∧
      HelpComponent.handle_key_events st keyK =
        (.ok none, { rendered := 0, scroll := st.scroll.scroll_to_previous_line }) ∧
      HelpComponent.handle_key_events st keyUp =
        (.ok none, { rendered := 0, scroll := st.scroll.scroll_to_previous_line }) ∧
      HelpComponent.handle_key_events st keyLBracket =
        (.ok none, { rendered := 0, scroll := st.scroll.scroll_to_top }) ∧
      HelpComponent.handle_key_events st keyRBracket =
        (.ok none, { rendered := 0, scroll := st.scroll.scroll_to_bottom })) ∧
    (∀ (closed : Bool) (st : SchemasComponent),
      SchemasComponent.handle_key_events closed st keyJ =
        (.ok none, { st with scroll := st.scroll.scroll_to_next_line }, []) ∧
      SchemasComponent.handle_key_events closed st keyDown =
        (.ok none, { st with scroll := st.scroll.scroll_to_next_line }, []) ∧
      SchemasComponent.handle_key_events closed st keyK =
        (.ok none, { st with scroll := st.scroll.scroll_to_previous_line }, []) ∧
      SchemasComponent.handle_key_events closed st keyUp =
        (.ok none, { st with scroll := st.scroll.scroll_to_previous_line }, []) ∧
      SchemasComponent.handle_key_events closed st keyLBracket =
        (.ok none, { st with scroll := st.scroll.scroll_to_top }, []) ∧
      SchemasComponent.handle_key_events closed st keyRBracket =
        (.ok none, { st with scroll := st.scroll.scroll_to_bottom }, [])) ∧
    (∀ (σ : Type) (c : ComponentImpl σ) (st : VerticalScrollableBlock σ),
      VerticalScrollableBlock.handle_key_events c st keyJ =
        (.ok none, { st with scroll := min ((st.scroll + 1) % 65536) st.scroll_length }) ∧
      VerticalScrollableBlock.handle_key_events c st keyDown =
        (.ok none, { st with scroll := min ((st.scroll + 1) % 65536) st.scroll_length }) ∧
      VerticalScrollableBlock.handle_key_events c st keyK =
        (.ok none, { st with scroll := st.scroll - 1 }) ∧
      VerticalScrollableBlock.handle_key_events c st keyUp =
        (.ok none, { st with scroll := st.scroll - 1 }) ∧
      VerticalScrollableBlock.handle_key_events c st keyLBracket =
        (.ok none, { st with scroll := 0 }) ∧
      VerticalScrollableBlock.handle_key_events c st keyRBracket =
        (.ok none, { st with scroll := st.scroll_length })) ∧
    (∀ (closed : Bool) (st : RecordDetailsComponent),
      RecordDetailsComponent.handle_key_events closed st keyJ =
        some (.ok none, { st with scroll := st.scroll.scroll_to_next_line }, []) ∧
      RecordDetailsComponent.handle_key_events closed st keyK =
        some (.ok none, { st with scroll := st.scroll.scroll_to_previous_line }, []) ∧
      RecordDetailsComponent.handle_key_events closed st keyLBracket =
        some (.ok none, { st with scroll := st.scroll.scroll_to_top }, []) ∧
      RecordDetailsComponent.handle_key_events closed st keyRBracket =
        some (.ok none, { st with scroll := st.scroll.scroll_to_bottom }, []) ∧
      RecordDetailsComponent.handle_key_events closed st keyDown =
        some (.ok none, st, []) ∧
      RecordDetailsComponent.handle_key_events closed st keyUp =
        some (.ok none, st, [])) :=
  ⟨fun _ => ⟨rfl, rfl, rfl, rfl, rfl, rfl⟩,
   fun _ _ => ⟨rfl, rfl, rfl, rfl, rfl, rfl⟩,
   fun _ _ _ => ⟨rfl, rfl, rfl, rfl, rfl, rfl⟩,
   fun _ _ => ⟨rfl, rfl, rfl, rfl, rfl, rfl⟩⟩

/-- C6: whenever the inner content height fits in the viewport height,
    the draw forces the decorator's scroll offset to 0 and renders the
    scrollbar with a zero-length track, regardless of the offset
    accumulated before. -/
theorem C6_scrollbar_absent {σ : Type} (c : ComponentImpl σ)
    (st : VerticalScrollableBlock σ) (rectHeight : Nat)
    (hfit : c.content_height st.component ≤ rectHeight) :
    (VerticalScrollableBlock.draw c st rectHeight).scroll = 0 ∧
    (VerticalScrollableBlock.draw c st rectHeight).scrollbar_content_length = 0 := by
  have h : ¬ rectHeight < min (c.content_height st.component) 65535 := by omega
  unfold VerticalScrollableBlock.draw
  simp only [h, if_false]
  exact ⟨trivial, trivial⟩

/-- C6 witness: content height 5 in a viewport of height 10. -/
theorem C6_witness :
    (constComponent 5).content_height () ≤ 10 ∧
    (VerticalScrollableBlock.draw (constComponent 5)
      { scroll := 7, scroll_length := 10, scrollbar_content_length := 3,
        scrollbar_position := 7, component := () } 10).scroll = 0 ∧
    (VerticalScrollableBlock.draw (constComponent 5)
      { scroll := 7, scroll_length := 10, scrollbar_content_length := 3,
        scrollbar_position := 7, component := () } 10).scrollbar_content_length = 0 :=
  ⟨by decide,
   (C6_scrollbar_absent (constComponent 5) _ 10 (by decide)).1,
   (C6_scrollbar_absent (constComponent 5) _ 10 (by decide)).2⟩

/-- Key handling never raises the decorator's offset above the cached
    scroll length, and never changes the cached scroll length itself. -/
theorem handle_key_events_scroll_le {σ : Type} (c : ComponentImpl σ)
    (st : VerticalScrollableBlock σ) (k : KeyEvent)
    (h : st.scroll ≤ st.scroll_length) :
    (VerticalScrollableBlock.handle_key_events c st k).2.scroll ≤ st.scroll_length ∧
    (VerticalScrollableBlock.handle_key_events c st k).2.scroll_length = st.scroll_length := by
  obtain ⟨code, ctrl⟩ := k
  unfold VerticalScrollableBlock.handle_key_events
  dsimp only
  split <;>
    first
      | exact ⟨by omega, rfl⟩
      | exact ⟨by dsimp only; omega, rfl⟩
      | exact ⟨by split <;> exact h, by split <;> rfl⟩

/-- A whole key sequence keeps the offset within the cached scroll length
    and leaves the cached scroll length unchanged. -/
theorem applyScrollKeys_scroll_le {σ : Type} (c : ComponentImpl σ)
    (keys : List KeyEvent) (st : VerticalScrollableBlock σ)
    (h : st.scroll ≤ st.scroll_length) :
    (applyScrollKeys c st keys).scroll ≤ st.scroll_length ∧
    (applyScrollKeys c st keys).scroll_length = st.scroll_length := by
  induction keys generalizing st with
  | nil => exact ⟨h, rfl⟩
  | cons k rest ih =>
      have step := handle_key_events_scroll_le c st k h
      have rec := ih ((VerticalScrollableBlock.handle_key_events c st k).2)
        (le_of_le_of_eq step.1 step.2.symm)
      exact ⟨rec.1.trans (le_of_eq step.2), rec.2.trans step.2⟩

/-- C3 counterexample: from the freshly constructed decorator (cached
    scroll length 10) around content of height 5, pressing `]` and then
    drawing in a viewport of height 1 recomputes the bound as 6 but
    renders offset and scrollbar position 10, outside `[0, 6]`. -/
theorem C3_counterexample :
    (VerticalScrollableBlock.draw (constComponent 5)
      ((VerticalScrollableBlock.handle_key_events (constComponent 5)
        (VerticalScrollableBlock.new (constComponent 5) ()) keyRBracket).2) 1).scroll_length = 6 ∧
    (VerticalScrollableBlock.draw (constComponent 5)
      ((VerticalScrollableBlock.handle_key_events (constComponent 5)
        (VerticalScrollableBlock.new (constComponent 5) ()) keyRBracket).2) 1).scroll = 10 ∧
    (VerticalScrollableBlock.draw (constComponent 5)
      ((VerticalScrollableBlock.handle_key_events (constComponent 5)
        (VerticalScrollableBlock.new (constComponent 5) ()) keyRBracket).2) 1).scrollbar_position = 10 ∧
    ¬ (VerticalScrollableBlock.draw (constComponent 5)
      ((VerticalScrollableBlock.handle_key_events (constComponent 5)
        (VerticalScrollableBlock.new (constComponent 5) ()) keyRBracket).2) 1).scrollbar_position ≤
      (VerticalScrollableBlock.draw (constComponent 5)
        ((VerticalScrollableBlock.handle_key_events (constComponent 5)
          (VerticalScrollableBlock.new (constComponent 5) ()) keyRBracket).2) 1).scroll_length := by
  decide

/-- C3 (amended): scroll keys clamp eagerly against the cached bound from
    the previous draw (initially 10), so after any key sequence the offset
    stays within `[0, L]` for that stale bound `L`; the draw does not
    re-clamp against the recomputed bound — it renders the scrollbar at
    the unclamped offset when the content overflows, and forces the offset
    to 0 only when the content fits the viewport. -/
theorem C3_offset_bound_amended {σ : Type} (c : ComponentImpl σ)
    (st : VerticalScrollableBlock σ) (keys : List KeyEvent) (rectHeight : Nat)
    (h : st.scroll ≤ st.scroll_length) :
    (applyScrollKeys c st keys).scroll ≤ st.scroll_length ∧
    (applyScrollKeys c st keys).scroll_length = st.scroll_length ∧
    (VerticalScrollableBlock.draw c (applyScrollKeys c st keys) rectHeight).scroll ≤
      st.scroll_length ∧
    (rectHeight < min (c.content_height (applyScrollKeys c st keys).component) 65535 →
      (VerticalScrollableBlock.draw c (applyScrollKeys c st keys) rectHeight).scrollbar_position =
        (applyScrollKeys c st keys).scroll) ∧
    (¬ rectHeight < min (c.content_height (applyScrollKeys c st keys).component) 65535 →
      (VerticalScrollableBlock.draw c (applyScrollKeys c st keys) rectHeight).scroll = 0) := by
  have hf := applyScrollKeys_scroll_le c keys st h
  refine ⟨hf.1, hf.2, ?_, ?_, ?_⟩
  · unfold VerticalScrollableBlock.draw
    dsimp only
    split
    · exact hf.1
    · exact Nat.zero_le _
  · intro hlt
    unfold VerticalScrollableBlock.draw
    dsimp only
    rw [if_pos hlt]
  · intro hge
    unfold VerticalScrollableBlock.draw
    dsimp only
    rw [if_neg hge]

/-- C3 witness: two `j` presses then a draw on the height-50 fixture. -/
theorem C3_witness :
    vsb50.scroll ≤ vsb50.scroll_length ∧
    ((applyScrollKeys (constComponent 50) vsb50 [keyJ, keyJ]).scroll ≤ vsb50.scroll_length ∧
     (applyScrollKeys (constComponent 50) vsb50 [keyJ, keyJ]).scroll_length = vsb50.scroll_length ∧
     (VerticalScrollableBlock.draw (constComponent 50)
       (applyScrollKeys (constComponent 50) vsb50 [keyJ, keyJ]) 3).scroll ≤ vsb50.scroll_length ∧
     (3 < min ((constComponent 50).content_height
         (applyScrollKeys (constComponent 50) vsb50 [keyJ, keyJ]).component) 65535 →
       (VerticalScrollableBlock.draw (constComponent 50)
         (applyScrollKeys (constComponent 50) vsb50 [keyJ, keyJ]) 3).scrollbar_position =
         (applyScrollKeys (constComponent 50) vsb50 [keyJ, keyJ]).scroll) ∧
     (¬ 3 < min ((constComponent 50).content_height
         (applyScrollKeys (constComponent 50) vsb50 [keyJ, keyJ]).component) 65535 →
       (VerticalScrollableBlock.draw (constComponent 50)
         (applyScrollKeys (constComponent 50) vsb50 [keyJ, keyJ]) 3).scroll = 0)) :=
  ⟨by decide, C3_offset_bound_amended (constComponent 50) vsb50 [keyJ, keyJ] 3 (by decide)⟩

/-- C1 counterexample: for an inner component whose key handler yields an
    action (permitted by the `Component` contract), the decorator returns
    `Ok(None)` on a non-scroll key while the inner component returns
    `Ok(Some(action))` — the delegated result is not identical. -/
theorem C1_counterexample :
    VerticalScrollableBlock.isScrollKey keyX.code = false ∧
    (VerticalScrollableBlock.handle_key_events actionInner
      (VerticalScrollableBlock.new actionInner ()) keyX).1 = .ok none ∧
    (actionInner.handle_key_events
      (VerticalScrollableBlock.new actionInner ()).component keyX).1 = .ok (some .tick) ∧
    (VerticalScrollableBlock.handle_key_events actionInner
      (VerticalScrollableBlock.new actionInner ()) keyX).1 ≠
      (actionInner.handle_key_events
        (VerticalScrollableBlock.new actionInner ()).component keyX).1 := by
  decide

/-- C1 (amended): for every key outside the scroll vocabulary the
    decorator leaves its own scroll offset and cached scroll length
    unchanged, forwards the key to the inner component (keeping the inner
    state transition and propagating an inner error verbatim), but maps a
    successful inner result — action or not — to `Ok(None)`; `id`,
    `update` and `shortcuts` delegate exactly. -/
theorem C1_delegation_amended {σ : Type} (c : ComponentImpl σ)
    (st : VerticalScrollableBlock σ) (key : KeyEvent) (a : Action)
    (h : VerticalScrollableBlock.isScrollKey key.code = false) :
    ((VerticalScrollableBlock.handle_key_events c st key).2.scroll = st.scroll ∧
     (VerticalScrollableBlock.handle_key_events c st key).2.scroll_length = st.scroll_length ∧
     (VerticalScrollableBlock.handle_key_events c st key).2.component =
       (c.handle_key_events st.component key).2 ∧
     (VerticalScrollableBlock.handle_key_events c st key).1 =
       (match (c.handle_key_events st.component key).1 with
        | .error e => Except.error e
        | .ok _ => Except.ok none)) ∧
    VerticalScrollableBlock.id c st = c.id ∧
    VerticalScrollableBlock.update c st a =
      ((c.update st.component a).1, { st with component := (c.update st.component a).2 }) ∧
    VerticalScrollableBlock.shortcuts c st = c.shortcuts st.component := by
  refine ⟨?_, rfl, rfl, rfl⟩
  obtain ⟨code, ctrl⟩ := key
  unfold VerticalScrollableBlock.handle_key_events
  dsimp only
  split
  all_goals try (exfalso; simp_all [VerticalScrollableBlock.isScrollKey]; done)
  rcases hr : (c.handle_key_events st.component ⟨code, ctrl⟩).1 with e | v <;>
    simp [hr]

/-- C1 witness: the non-scroll key `x` on the height-3 fixture. -/
theorem C1_witness :
    VerticalScrollableBlock.isScrollKey keyX.code = false ∧
    (((VerticalScrollableBlock.handle_key_events (constComponent 3) vsbConst keyX).2.scroll =
        vsbConst.scroll ∧
      (VerticalScrollableBlock.handle_key_events (constComponent 3) vsbConst keyX).2.scroll_length =
        vsbConst.scroll_length ∧
      (VerticalScrollableBlock.handle_key_events (constComponent 3) vsbConst keyX).2.component =
        ((constComponent 3).handle_key_events vsbConst.component keyX).2 ∧
      (VerticalScrollableBlock.handle_key_events (constComponent 3) vsbConst keyX).1 =
        (match ((constComponent 3).handle_key_events vsbConst.component keyX).1 with
         | .error e => Except.error e
         | .ok _ => Except.ok none)) ∧
     VerticalScrollableBlock.id (constComponent 3) vsbConst = (constComponent 3).id ∧
     VerticalScrollableBlock.update (constComponent 3) vsbConst .tick =
       (((constComponent 3).update vsbConst.component .tick).1,
        { vsbConst with component := ((constComponent 3).update vsbConst.component .tick).2 }) ∧
     VerticalScrollableBlock.shortcuts (constComponent 3) vsbConst =
       (constComponent 3).shortcuts vsbConst.component) :=
  ⟨by decide, C1_delegation_amended (constComponent 3) vsbConst keyX .tick (by decide)⟩

/-- C4 counterexample: draw content of height 5 in a viewport of height 2
    (bound 5), press `]` (offset 5), let the content grow to height 10,
    draw again: the recomputed bound is 10 but the rendered scrollbar
    position is the stale 5. -/
theorem C4_counterexample :
    (VerticalScrollableBlock.draw growComponent
      (VerticalScrollableBlock.update growComponent
        ((VerticalScrollableBlock.handle_key_events growComponent
          (VerticalScrollableBlock.draw growComponent
            (VerticalScrollableBlock.new growComponent 5) 2) keyRBracket).2) .tick).2
      2).scroll_length = 10 ∧
    (VerticalScrollableBlock.draw growComponent
      (VerticalScrollableBlock.update growComponent
        ((VerticalScrollableBlock.handle_key_events growComponent
          (VerticalScrollableBlock.draw growComponent
            (VerticalScrollableBlock.new growComponent 5) 2) keyRBracket).2) .tick).2
      2).scrollbar_position = 5 ∧
    (VerticalScrollableBlock.draw growComponent
      (VerticalScrollableBlock.update growComponent
        ((VerticalScrollableBlock.handle_key_events growComponent
          (VerticalScrollableBlock.draw growComponent
            (VerticalScrollableBlock.new growComponent 5) 2) keyRBracket).2) .tick).2
      2).scrollbar_position ≠
    (VerticalScrollableBlock.draw growComponent
      (VerticalScrollableBlock.update growComponent
        ((VerticalScrollableBlock.handle_key_events growComponent
          (VerticalScrollableBlock.draw growComponent
            (VerticalScrollableBlock.new growComponent 5) 2) keyRBracket).2) .tick).2
      2).scroll_length := by
  decide

/-- C4 (amended): after `]` the offset equals the bound cached at
    key-press time; if the inner content then changes to any state `x`
    still overflowing the viewport, the next draw renders the scrollbar at
    that stale bound while recomputing the track length from the new
    content height — the rendered position is the old bound, not the new
    one. -/
theorem C4_stale_bound_amended {σ : Type} (c : ComponentImpl σ)
    (st : VerticalScrollableBlock σ) (x : σ) (rectHeight : Nat)
    (h : rectHeight < min (c.content_height x) 65535) :
    (VerticalScrollableBlock.draw c
      { (VerticalScrollableBlock.handle_key_events c st keyRBracket).2 with component := x }
      rectHeight).scrollbar_position = st.scroll_length ∧
    (VerticalScrollableBlock.draw c
      { (VerticalScrollableBlock.handle_key_events c st keyRBracket).2 with component := x }
      rectHeight).scroll_length =
      (min (c.content_height x) 65535 - rectHeight + 2) % 65536 := by
  have hk : (VerticalScrollableBlock.handle_key_events c st keyRBracket).2 =
      { st with scroll := st.scroll_length } := rfl
  rw [hk]
  unfold VerticalScrollableBlock.draw
  dsimp only
  rw [if_pos h]
  exact ⟨rfl, rfl⟩

/-- C4 witness: content grown to 12 lines, viewport height 2. -/
theorem C4_witness :
    2 < min (growComponent.content_height 12) 65535 ∧
    (VerticalScrollableBlock.draw growComponent
      { (VerticalScrollableBlock.handle_key_events growComponent
          (VerticalScrollableBlock.new growComponent 5) keyRBracket).2 with component := 12 }
      2).scrollbar_position = (VerticalScrollableBlock.new growComponent 5).scroll_length ∧
    (VerticalScrollableBlock.draw growComponent
      { (VerticalScrollableBlock.handle_key_events growComponent
          (VerticalScrollableBlock.new growComponent 5) keyRBracket).2 with component := 12 }
      2).scroll_length = (min (growComponent.content_height 12) 65535 - 2 + 2) % 65536 :=
  ⟨by decide,
   (C4_stale_bound_amended growComponent (VerticalScrollableBlock.new growComponent 5) 12 2
     (by decide)).1,
   (C4_stale_bound_amended growComponent (VerticalScrollableBlock.new growComponent 5) 12 2
     (by decide)).2⟩

/-- C7 counterexample: a `ShowRecord` carrying an out-of-range timestamp
    aborts inside the rendering (modelled `none`), so the content is not
    recomputed and the scroll offset is not reset. -/
theorem C7_counterexample :
    RecordDetailsComponent.update hlId RecordDetailsComponent.default
      (.showRecord badTimestampRecord) = none := by
  decide

/-- C7 (amended): whenever a data-arrival action replaces a panel's
    content and the update completes — the record-details rendering aborts
    on out-of-range timestamps — the rendered lines are recomputed from
    the new data and the scroll offset is reset to 0. -/
theorem C7_content_replacement_amended (hl : Highlighter) :
    (∀ (st : RecordDetailsComponent) (r : KafkaRecord)
       (res : Except TuiError (Option Action)) (st' : RecordDetailsComponent),
       RecordDetailsComponent.update hl st (.showRecord r) = some (res, st') →
       res = .ok none ∧ st'.record = some r ∧
       renderRecordLines hl r = some st'.lines ∧
       st'.scroll = ScrollState.initial) ∧
    (∀ (st : SchemasComponent) (k v : Option SchemaDetail),
       (SchemasComponent.update hl st (.schemas k v)).1 = .ok none ∧
       (SchemasComponent.update hl st (.schemas k v)).2.key = k ∧
       (SchemasComponent.update hl st (.schemas k v)).2.value = v ∧
       (SchemasComponent.update hl st (.schemas k v)).2.lines =
         (SchemasComponent.compute_schemas_rendering hl
           { st with key := k, value := v }).lines ∧
       (SchemasComponent.update hl st (.schemas k v)).2.scroll = ScrollState.initial) := by
  constructor
  · intro st r res st' hup
    cases hr : renderRecordLines hl r with
    | none =>
        simp [RecordDetailsComponent.update, RecordDetailsComponent.compute_record_rendering,
          hr] at hup
    | some ls =>
        simp [RecordDetailsComponent.update, RecordDetailsComponent.compute_record_rendering,
          hr] at hup
        obtain ⟨hres, hst⟩ := hup
        subst hst
        exact ⟨hres.symm, rfl, by simp [hr], rfl⟩
  · intro st k v
    exact ⟨rfl, rfl, rfl, rfl, rfl⟩

/-- C7 witness: showing the default record on the default state. -/
theorem C7_witness :
    RecordDetailsComponent.update hlId RecordDetailsComponent.default
      (.showRecord KafkaRecord.default) = some (.ok none, defaultShownState) ∧
    ((Except.ok none : Except TuiError (Option Action)) = .ok none ∧
     defaultShownState.record = some KafkaRecord.default ∧
     renderRecordLines hlId KafkaRecord.default = some defaultShownState.lines ∧
     defaultShownState.scroll = ScrollState.initial) :=
  ⟨by decide,
   (C7_content_replacement_amended hlId).1 RecordDetailsComponent.default
     KafkaRecord.default (.ok none) defaultShownState (by decide)⟩

/-- C8: a record with no timestamp renders fine with the default 0 ms; a
    record with a malformed (out-of-range) timestamp aborts the rendering
    through `DateTime::from_timestamp_millis(..).unwrap()` (modelled
    `none`) — `compute_record_rendering` is not total over all records. -/
theorem C8_timestamp_handling :
    KafkaRecord.default.timestamp = none ∧
    renderRecordLines hlId KafkaRecord.default = some defaultRecordLines ∧
    defaultRecordLines.get? 2 = some (.timestampMs 0) ∧
    badTimestampRecord.timestamp = some 9223372036854775807 ∧
    renderRecordLines hlId badTimestampRecord = none ∧
    RecordDetailsComponent.compute_record_rendering hlId
      { RecordDetailsComponent.default with record := some badTimestampRecord } = none := by
  decide

/-- Byte length of the empty string. -/
theorem byteLen_nil : byteLen [] = 0 := rfl

/-- Byte length of a cons. -/
theorem byteLen_cons (c : Char) (cs : List Char) :
    byteLen (c :: cs) = c.utf8Size + byteLen cs := by
  simp [byteLen]

/-- A string never has more characters than UTF-8 bytes. -/
theorem length_le_byteLen (s : List Char) : s.length ≤ byteLen s := by
  induction s with
  | nil => simp [byteLen]
  | cons c cs ih =>
      have := Char.utf8Size_pos c
      simp only [List.length_cons, byteLen_cons]
      omega

/-- The `n`-th entry of `char_indices` is the `n`-th character paired with
    the byte length of the preceding prefix. -/
theorem charIndicesAux_get? (s : List Char) : ∀ off n : Nat,
    (charIndicesAux off s).get? n =
      (s.get? n).map (fun c => (off + byteLen (s.take n), c)) := by
  induction s with
  | nil => intro off n; simp [charIndicesAux]
  | cons c cs ih =>
      intro off n
      cases n with
      | zero => simp [charIndicesAux, byteLen]
      | succ m =>
          simp only [charIndicesAux, List.get?_cons_succ, List.take_succ_cons, byteLen_cons,
            ih (off + c.utf8Size) m]
          cases hc : cs.get? m <;> simp [hc, Nat.add_assoc]

/-- Slicing a string at the byte length of a take yields that take: every
    such index is a character boundary. -/
theorem sliceTo_byteLen_take (s : List Char) : ∀ n : Nat,
    sliceTo s (byteLen (s.take n)) = some (s.take n) := by
  induction s with
  | nil => intro n; simp [sliceTo, byteLen]
  | cons c cs ih =>
      intro n
      cases n with
      | zero => simp [sliceTo, byteLen]
      | succ m =>
          have hpos := Char.utf8Size_pos c
          rw [List.take_succ_cons, byteLen_cons]
          obtain ⟨t, ht⟩ : ∃ t, c.utf8Size + byteLen (cs.take m) = t + 1 :=
            ⟨c.utf8Size + byteLen (cs.take m) - 1, by omega⟩
          rw [ht]
          simp only [sliceTo]
          rw [if_pos (by omega)]
          have hsub : t + 1 - c.utf8Size = byteLen (cs.take m) := by omega
          rw [hsub, ih m]
          rfl

/-- `truncate_str` never panics: it keeps a byte-short string whole and
    otherwise takes the first `max_len` characters. -/
theorem truncate_str_eq_take (rect : Rect) (s : List Char) :
    truncate_str rect s =
      some (if byteLen s ≤ (if 84 ≤ rect.width then rect.width - 84 else 30) then s
        else s.take (if 84 ≤ rect.width then rect.width - 84 else 30)) := by
  unfold truncate_str
  by_cases hb : byteLen s ≤ (if 84 ≤ rect.width then rect.width - 84 else 30)
  · simp [hb]
  · simp only [hb, if_false]
    have hci := charIndicesAux_get? s 0 (if 84 ≤ rect.width then rect.width - 84 else 30)
    by_cases hlen : (if 84 ≤ rect.width then rect.width - 84 else 30) < s.length
    · cases hc : s.get? (if 84 ≤ rect.width then rect.width - 84 else 30) with
      | none =>
          have := List.get?_eq_none.mp hc
          omega
      | some c =>
          rw [hci, hc]
          simp only [Option.map_some, Option.getD_some, Nat.zero_add]
          exact sliceTo_byteLen_take s _
    · have hc : s.get? (if 84 ≤ rect.width then rect.width - 84 else 30) = none :=
        List.get?_eq_none.mpr (by omega)
      rw [hci, hc]
      simp only [Option.map_none', Option.getD_none]
      have hts : s.take (if 84 ≤ rect.width then rect.width - 84 else 30) = s :=
        List.take_of_length_le (by omega)
      rw [hts]
      have hfull := sliceTo_byteLen_take s s.length
      rw [List.take_length] at hfull
      exact hfull

/-- C9: for every rectangle and string (multi-byte characters included)
    `truncate_str` returns, without panicking, a prefix of at most
    `max_len` characters where `max_len` is `rect.width - 84` when the
    width is at least 84 and 30 otherwise, and returns the string
    unchanged when it has at most `max_len` characters. -/
theorem C9_truncate_str_safe (rect : Rect) (s : List Char) :
    ∃ t, truncate_str rect s = some t ∧
      (∃ r, t ++ r = s) ∧
      t.length ≤ (if 84 ≤ rect.width then rect.width - 84 else 30) ∧
      (s.length ≤ (if 84 ≤ rect.width then rect.width - 84 else 30) → t = s) := by
  by_cases hb : byteLen s ≤ (if 84 ≤ rect.width then rect.width - 84 else 30)
  · refine ⟨s, ?_, ⟨[], by simp⟩, (length_le_byteLen s).trans hb, fun _ => rfl⟩
    rw [truncate_str_eq_take, if_pos hb]
  · refine ⟨s.take (if 84 ≤ rect.width then rect.width - 84 else 30), ?_,
      ⟨s.drop (if 84 ≤ rect.width then rect.width - 84 else 30), List.take_append_drop _ s⟩,
      ?_, ?_⟩
    · rw [truncate_str_eq_take, if_neg hb]
    · simp only [List.length_take]
      omega
    · intro hsl
      exact List.take_of_length_le hsl

/-- C9 witness: width 87 (so `max_len` 3) on a 4-character string with a
    two-byte character. -/
theorem C9_witness :
    ∃ t, truncate_str ⟨87, 40⟩ [' ', 'a', 'é', 'b'] = some t ∧
      (∃ r, t ++ r = [' ', 'a', 'é', 'b']) ∧
      t.length ≤ (if 84 ≤ (87 : Nat) then 87 - 84 else 30) ∧
      (([' ', 'a', 'é', 'b'] : List Char).length ≤ (if 84 ≤ (87 : Nat) then 87 - 84 else 30) →
        t = [' ', 'a', 'é', 'b']) :=
  C9_truncate_str_safe ⟨87, 40⟩ [' ', 'a', 'é', 'b']

end Tui
